import Mathlib

/-!
# Shallow embedding of the pylon_camera control node

The repository snapshot contains only the interface header
`src/include/pylon_camera/pylon_camera_node.h` (class `PylonCameraNode`:
declarations and doc comments, no function bodies).  Every operation below is
therefore modelled from the repository's specification, faithful to its words
and to the header's doc comments; each such definition carries a
`Modelled from the spec:` note naming the missing body.

Conventions of the embedding:
* pixel intensities are `Nat`, photometric quantities (brightness, exposure,
  gain) are `ℚ`;
* the camera device (the Device Facade, outside the core) is a parameter:
  a response function for parameter writes, an `Option Frame` per grab
  (`none` = timeout), and a per-frame-index family for multi-frame capture;
* stateful methods are state transformers on `NodeState`; every device touch
  is recorded in an explicit trace so that "no device call was made" is a
  provable statement;
* the hardware lock of the sequential model is a `Bool` field: an operation
  that would block behind the lock returns `Blocked` in this snapshot view.
-/

/-- A grabbed image: the pixel-intensity buffer of a `sensor_msgs::Image`. -/
structure Frame where
  data : List Nat
deriving DecidableEq, Repr

/-- Error taxonomy of the spec (section 7). -/
inductive CallError
  | DeviceError
  | TimeoutError
  | SleepingError
  | ValidationError
deriving DecidableEq, Repr

/-- Terminal outcome of the goal-based multi-frame capture. -/
inductive Outcome
  | Succeeded
  | SucceededWithErrors
  | Preempted
  | Rejected
deriving DecidableEq, Repr

/-- Result of a single `grabImage` call in the sequential snapshot model;
`Blocked` stands for "serialized behind the current hardware-lock owner". -/
inductive GrabOutcome
  | Ok (f : Frame)
  | Err (e : CallError)
  | Blocked
deriving DecidableEq, Repr

/-- The mutable fields of `PylonCameraNode` that the claims are about
(header lines 236-242), plus the coordinator-state flag of the spec
(`MultiGrabInProgress`); `grab_mutex_locked_` models whether the recursive
hardware mutex `grab_mutex_` is currently held by some other operation. -/
structure NodeState where
  img_raw_msg_ : Frame
  is_sleeping_ : Bool
  brightness_service_running_ : Bool
  multi_grab_in_progress_ : Bool
  grab_mutex_locked_ : Bool
deriving DecidableEq, Repr

/-- The mean of a list of sample intensities, written as the spec says it:
sum of all samples divided by their number. -/
def meanIntensity (l : List Nat) : ℚ :=
  (l.sum : ℚ) / l.length

/-- Modelled from the spec: the body of `PylonCameraNode::calcCurrentBrightness`
is absent from the snapshot (header lines 183-187 declare it).  Per the spec it
is a pure function over the most recent frame's pixel buffer, the mean of all
sample intensities, with no side effects; the accumulation over the buffer is
modelled as a left fold (accumulate, then divide), and the unchanged state is
returned to make statelessness a provable statement. -/
def calcCurrentBrightness (st : NodeState) : ℚ × NodeState :=
  ((st.img_raw_msg_.data.foldl (fun (acc : ℚ) (v : Nat) => acc + (v : ℚ)) 0)
      / st.img_raw_msg_.data.length, st)

/-- Pure read of the sleep flag (header lines 177-181). -/
def isSleeping (st : NodeState) : Bool :=
  st.is_sleeping_

/-- Modelled from the spec: the body of `PylonCameraNode::grabImage` is absent
from the snapshot (header lines 78-82 declare it: "Grabs an image and stores
the image in img_raw_msg_, @return false if an error occurred").  Per the spec
it acquires the hardware lock, refuses with `SleepingError` if the sleep flag
is set, else performs one device grab (`dev`: `none` = timeout), stores the
frame in `img_raw_msg_` and releases the lock.  The returned `Bool` records
whether the device was touched. -/
def grabImage (dev : Option Frame) (st : NodeState) :
    GrabOutcome × NodeState × Bool :=
  if st.grab_mutex_locked_ then (GrabOutcome.Blocked, st, false)
  else if st.is_sleeping_ then (GrabOutcome.Err CallError.SleepingError, st, false)
  else
    match dev with
    | some f => (GrabOutcome.Ok f, { st with img_raw_msg_ := f }, true)
    | none => (GrabOutcome.Err CallError.TimeoutError, st, true)

/-- Modelled from the spec: the body of `PylonCameraNode::setSleepingCallback`
is absent from the snapshot (header lines 168-175 declare it).  Per the spec
`setSleeping(flag)` sets/clears the sleep flag but refuses — returning failure
with the state unchanged — while a multi-frame capture is in progress. -/
def setSleepingCallback (flag : Bool) (st : NodeState) : Bool × NodeState :=
  if st.multi_grab_in_progress_ then (false, st)
  else (true, { st with is_sleeping_ := flag })

/-- Response of the set-gain service: success flag, reached value, and the
refusal reason when the request never reached the device. -/
structure SetGainResponse where
  success : Bool
  reached : ℚ
  err : Option CallError
deriving DecidableEq, Repr

/-- Modelled from the spec: the bodies of `PylonCameraNode::setGain` and
`PylonCameraNode::setGainCallback` are absent from the snapshot (header lines
134-149 declare them).  Per the spec the control surface validates the target
against the configured gain bounds and rejects out-of-range targets as a
`ValidationError` before any device call; otherwise the target is written to
the device (`devSetGain` returns the reached value, recorded in the trace of
device writes) and success means the reached value is within device tolerance
`dtol` of the target. -/
def setGainCallback (devSetGain : ℚ → ℚ) (dtol gmin gmax target : ℚ) :
    SetGainResponse × List ℚ :=
  if target < gmin ∨ gmax < target then
    (⟨false, 0, some CallError.ValidationError⟩, [])
  else
    (⟨decide (|devSetGain target - target| ≤ dtol), devSetGain target, none⟩,
      [target])

/-- Frames, per-frame success flags, preemption flag and device-grab trace
collected by the multi-frame capture loop. -/
structure LoopResult where
  frames : List Frame
  statuses : List Bool
  preempted : Bool
  trace : List Nat
deriving DecidableEq, Repr

/-- Modelled from the spec: the per-frame loop of
`PylonCameraNode::grabImagesRaw` (body absent from the snapshot, header lines
195-200 declare it).  Per the spec the coordinator checks the cancellation
flag before each frame and stops immediately when it is set; otherwise it
grabs frame `i` with the per-frame timeout (`dev i = none` is a timeout),
appends the frame and its success flag, and continues with the next frame —
a per-frame failure does not abort the remaining frames.  `trace` records the
indices of the device grabs actually attempted. -/
def grabFramesLoop (dev : Nat → Option Frame) (cancel : Nat → Bool) :
    Nat → Nat → LoopResult
  | 0, _ => ⟨[], [], false, []⟩
  | Nat.succ n, i =>
    if cancel i then ⟨[], [], true, []⟩
    else
      let r := grabFramesLoop dev cancel n (i + 1)
      match dev i with
      | some f => ⟨f :: r.frames, true :: r.statuses, r.preempted, i :: r.trace⟩
      | none => ⟨r.frames, false :: r.statuses, r.preempted, i :: r.trace⟩

/-- Terminal result of the goal-based multi-frame capture. -/
structure GrabImagesResult where
  frames : List Frame
  statuses : List Bool
  outcome : Outcome
deriving DecidableEq, Repr

/-- Modelled from the spec: the body of `PylonCameraNode::grabImagesRaw` is
absent from the snapshot (header lines 195-200 declare it).  Per the spec the
goal of `n` frames is rejected immediately (terminal `Rejected`, nothing
grabbed) when the sleep flag is set or the camera is not ready within the
bounded wait; otherwise the coordinator holds the hardware lock for the whole
operation, runs the per-frame loop, and finishes back in the idle state with
the lock released: `Preempted` on cancellation, `Succeeded` when every frame
succeeded, `SucceededWithErrors` when some frames timed out but the operation
ran to completion.  The third component is the trace of device grabs. -/
def grabImagesRaw (dev : Nat → Option Frame) (cancel : Nat → Bool)
    (cameraReady : Bool) (n : Nat) (st : NodeState) :
    GrabImagesResult × NodeState × List Nat :=
  if st.is_sleeping_ ∨ cameraReady = false then
    (⟨[], [], Outcome.Rejected⟩, st, [])
  else
    let r := grabFramesLoop dev cancel n 0
    let outcome :=
      if r.preempted then Outcome.Preempted
      else if r.statuses.all (fun b => b) then Outcome.Succeeded
      else Outcome.SucceededWithErrors
    (⟨r.frames, r.statuses, outcome⟩,
      { st with multi_grab_in_progress_ := false, grab_mutex_locked_ := false },
      r.trace)

/-- Trace of one brightness search: the parameter values tried in order, the
last tried parameter, the brightness measured there, and whether the search
terminated inside tolerance (rather than by budget exhaustion). -/
structure BisectResult where
  params : List ℚ
  reachedParam : ℚ
  reached : ℚ
  converged : Bool
deriving DecidableEq, Repr

/-- Modelled from the spec: the extended-brightness bisection inside
`PylonCameraNode::setBrightness` (body absent from the snapshot, header lines
106-123 declare and document it).  Per the spec the search keeps `[low, high]`
bounds on the controllable parameter, sets the parameter to the midpoint,
grabs a frame and measures its mean brightness (`resp` is the device's
brightness response to the parameter), narrows the interval toward the side
that moves brightness toward the target, and terminates when the measured
brightness is within `tol` of the target or when the iteration budget is
exhausted, reporting the best-effort reached value in the latter case. -/
def bisectSearch (resp : ℚ → ℚ) (target tol : ℚ) : Nat → ℚ → ℚ → BisectResult
  | 0, low, high =>
    ⟨[(low + high) / 2], (low + high) / 2, resp ((low + high) / 2), false⟩
  | Nat.succ n, low, high =>
    let mid := (low + high) / 2
    let b := resp mid
    if |b - target| ≤ tol then ⟨[mid], mid, b, true⟩
    else if b < target then
      let r := bisectSearch resp target tol n mid high
      ⟨mid :: r.params, r.reachedParam, r.reached, r.converged⟩
    else
      let r := bisectSearch resp target tol n low mid
      ⟨mid :: r.params, r.reachedParam, r.reached, r.converged⟩

/-- Outcome of `setBrightness`: the header (line 118) fixes the contract of
the success flag — "true if the brightness could be reached or false
otherwise" — and the reached brightness is always populated. -/
structure BrightnessResult where
  success : Bool
  reached : ℚ
deriving DecidableEq, Repr

/-- Modelled from the spec: the body of `PylonCameraNode::setBrightness` is
absent from the snapshot (header lines 106-123 declare and document it).  Per
the header the device's native auto function only supports targets in
`[50, 205]`; outside that band the extended binary search runs over the
controllable parameter — the exposure time when `exposure_auto` is set
(response `respE` over bounds `[emin, emax]`), the gain when `gain_auto` is
set (response `respG` over `[gmin, gmax]`), exposure first and gain as
fine-tune of the residual when both are set.  With neither auto flag there is
no controllable parameter and the current brightness `cur` is all that can be
reported.  The success flag follows the header contract: true exactly when
the target brightness was reached (within `tol`). -/
def setBrightness (respE respG : ℚ → ℚ) (tol : ℚ) (budget : Nat)
    (emin emax gmin gmax cur : ℚ) (target : ℤ)
    (exposure_auto gain_auto : Bool) : BrightnessResult :=
  if exposure_auto = false ∧ gain_auto = false then
    ⟨decide (|cur - (target : ℚ)| ≤ tol), cur⟩
  else if 50 ≤ target ∧ target ≤ 205 then
    ⟨true, (target : ℚ)⟩
  else
    match exposure_auto, gain_auto with
    | true, false =>
      let r := bisectSearch respE (target : ℚ) tol budget emin emax
      ⟨r.converged, r.reached⟩
    | false, true =>
      let r := bisectSearch respG (target : ℚ) tol budget gmin gmax
      ⟨r.converged, r.reached⟩
    | _, _ =>
      let r := bisectSearch respE (target : ℚ) tol budget emin emax
      if r.converged then ⟨true, r.reached⟩
      else
        let r2 := bisectSearch respG (target : ℚ) tol budget gmin gmax
        ⟨r2.converged, r2.reached⟩

/-- A Lipschitz bound on the device's brightness response, over `ℚ`. -/
def RatLipschitz (L : ℚ) (f : ℚ → ℚ) : Prop :=
  ∀ x y, |f x - f y| ≤ L * |x - y|

/-- A node state fixture: empty stored frame, awake, idle, lock free. -/
def initState : NodeState :=
  ⟨⟨[]⟩, false, false, false, false⟩

/-- A sleeping node state fixture. -/
def sleepingState : NodeState :=
  ⟨⟨[]⟩, true, false, false, false⟩

/-- A node state fixture with a multi-frame capture in progress. -/
def busyState : NodeState :=
  ⟨⟨[]⟩, false, false, true, true⟩

theorem foldl_add_cast (l : List Nat) (init : ℚ) :
    l.foldl (fun (acc : ℚ) (v : Nat) => acc + (v : ℚ)) init
      = init + (l.sum : ℚ) := by
  induction l generalizing init with
  | nil => simp
  | cons v t ih =>
    rw [List.foldl_cons, ih, List.sum_cons, Nat.cast_add]
    ring

theorem calcCurrentBrightness_fst (st : NodeState) :
    (calcCurrentBrightness st).1 = meanIntensity st.img_raw_msg_.data := by
  simp only [calcCurrentBrightness, meanIntensity, foldl_add_cast, zero_add]

/-- C9: `calcCurrentBrightness` is a pure, deterministic function of the most
recent frame's pixel buffer: it returns the mean of all sample intensities of
`img_raw_msg_`, leaves the node state unchanged, and a repeated call on the
same stored frame returns the same value. -/
theorem C9_calcCurrentBrightness_pure_mean (st : NodeState) :
    (calcCurrentBrightness st).1 = meanIntensity st.img_raw_msg_.data ∧
    (calcCurrentBrightness st).2 = st ∧
    (calcCurrentBrightness (calcCurrentBrightness st).2).1
      = (calcCurrentBrightness st).1 :=
  ⟨calcCurrentBrightness_fst st, rfl, rfl⟩

/-- C10: a successful `grabImage` stores the grabbed frame in `img_raw_msg_`
(replacing the stored frame), that stored buffer is exactly the frame over
which `calcCurrentBrightness` computes its mean, and a failed `grabImage`
leaves `img_raw_msg_` unchanged. -/
theorem C10_grabImage_stores_frame (dev : Option Frame) (st : NodeState)
    (hlock : st.grab_mutex_locked_ = false)
    (hsleep : st.is_sleeping_ = false) :
    (∀ f, dev = some f →
      (grabImage dev st).1 = GrabOutcome.Ok f ∧
      (grabImage dev st).2.1.img_raw_msg_ = f ∧
      (calcCurrentBrightness (grabImage dev st).2.1).1 = meanIntensity f.data) ∧
    (dev = none →
      (grabImage dev st).1 = GrabOutcome.Err CallError.TimeoutError ∧
      (grabImage dev st).2.1.img_raw_msg_ = st.img_raw_msg_) := by
  constructor
  · rintro f rfl
    refine ⟨?_, ?_, ?_⟩ <;>
      simp [grabImage, hlock, hsleep, calcCurrentBrightness_fst]
  · rintro rfl
    refine ⟨?_, ?_⟩ <;> simp [grabImage, hlock, hsleep]

/-- C10 witness: the theorem applied at a concrete awake, unlocked state with
a concrete grabbed frame, and at the same state with a device timeout. -/
theorem C10_witness :
    (grabImage (some ⟨[1, 2, 3]⟩) initState).2.1.img_raw_msg_ = ⟨[1, 2, 3]⟩ ∧
    (calcCurrentBrightness (grabImage (some ⟨[1, 2, 3]⟩) initState).2.1).1
      = meanIntensity [1, 2, 3] ∧
    (grabImage none initState).2.1.img_raw_msg_ = initState.img_raw_msg_ := by
  have h := C10_grabImage_stores_frame (some ⟨[1, 2, 3]⟩) initState rfl rfl
  have h2 := C10_grabImage_stores_frame none initState rfl rfl
  exact ⟨(h.1 _ rfl).2.1, (h.1 _ rfl).2.2, (h2.2 rfl).2⟩

/-- C5: `setSleeping(true)` while a multi-frame capture is in progress returns
failure and leaves the state (hence the sleep flag) unchanged; while idle it
returns success and sets the sleep flag. -/
theorem C5_setSleeping_refusal_and_success (st st2 : NodeState)
    (hbusy : st.multi_grab_in_progress_ = true)
    (hidle : st2.multi_grab_in_progress_ = false) :
    setSleepingCallback true st = (false, st) ∧
    (setSleepingCallback true st2).1 = true ∧
    (setSleepingCallback true st2).2.is_sleeping_ = true := by
  refine ⟨?_, ?_, ?_⟩ <;> simp [setSleepingCallback, hbusy, hidle]

/-- C5 witness: the theorem applied at a concrete busy state and a concrete
idle state. -/
theorem C5_witness :
    setSleepingCallback true busyState = (false, busyState) ∧
    (setSleepingCallback true initState).1 = true ∧
    (setSleepingCallback true initState).2.is_sleeping_ = true :=
  C5_setSleeping_refusal_and_success busyState initState rfl rfl

/-- C6: in every state with the sleep flag set (the lock being free, so the
call proceeds rather than blocking), `grabImage` is refused with
`SleepingError`, the state unchanged and the device untouched, and
`grabImagesRaw` is rejected immediately with terminal `Rejected`, no frames
collected, no state change and no device grab in the trace. -/
theorem C6_sleeping_refuses_grabs (dev : Option Frame)
    (devN : Nat → Option Frame) (cancel : Nat → Bool) (cameraReady : Bool)
    (n : Nat) (st : NodeState) (hsleep : st.is_sleeping_ = true)
    (hlock : st.grab_mutex_locked_ = false) :
    grabImage dev st = (GrabOutcome.Err CallError.SleepingError, st, false) ∧
    (grabImagesRaw devN cancel cameraReady n st).1
      = ⟨[], [], Outcome.Rejected⟩ ∧
    (grabImagesRaw devN cancel cameraReady n st).2.1 = st ∧
    (grabImagesRaw devN cancel cameraReady n st).2.2 = [] := by
  refine ⟨?_, ?_, ?_, ?_⟩ <;> simp [grabImage, grabImagesRaw, hsleep, hlock]

/-- C6 witness: the theorem applied at a concrete sleeping state with a
working device. -/
theorem C6_witness :
    grabImage (some ⟨[7]⟩) sleepingState
      = (GrabOutcome.Err CallError.SleepingError, sleepingState, false) ∧
    (grabImagesRaw (fun _ => some ⟨[7]⟩) (fun _ => false) true 3
        sleepingState).1 = ⟨[], [], Outcome.Rejected⟩ ∧
    (grabImagesRaw (fun _ => some ⟨[7]⟩) (fun _ => false) true 3
        sleepingState).2.2 = [] := by
  have h := C6_sleeping_refuses_grabs (some ⟨[7]⟩) (fun _ => some ⟨[7]⟩)
    (fun _ => false) true 3 sleepingState rfl rfl
  exact ⟨h.1, h.2.1, h.2.2.2⟩

/-- C8: a set-gain request whose target lies outside the configured gain
bounds `[0, 100]` is rejected as a `ValidationError` with an empty
device-write trace: validation happens at the control surface before any
device call. -/
theorem C8_setGain_validation (devSetGain : ℚ → ℚ) (dtol target : ℚ)
    (hout : target < 0 ∨ 100 < target) :
    setGainCallback devSetGain dtol 0 100 target
      = (⟨false, 0, some CallError.ValidationError⟩, []) := by
  unfold setGainCallback
  rw [if_pos hout]

/-- C8 witness: the theorem applied at the spec's example `target = 150`. -/
theorem C8_witness :
    setGainCallback (fun g => g) (1 / 100) 0 100 150
      = (⟨false, 0, some CallError.ValidationError⟩, []) :=
  C8_setGain_validation (fun g => g) (1 / 100) 150 (Or.inr (by norm_num))

theorem grabFramesLoop_preempt (dev : Nat → Option Frame)
    (cancel : Nat → Bool) (F : Nat → Frame) :
    ∀ k n i, k < n →
      (∀ j, j < k → cancel (i + j) = false) →
      (∀ j, j < k → dev (i + j) = some (F (i + j))) →
      cancel (i + k) = true →
      grabFramesLoop dev cancel n i
        = ⟨(List.range' i k).map F, List.replicate k true, true,
            List.range' i k⟩ := by
  intro k
  induction k with
  | zero =>
    intro n i hkn hc hd hcan
    obtain ⟨m, rfl⟩ : ∃ m, n = m + 1 := ⟨n - 1, by omega⟩
    have hci : cancel i = true := by simpa using hcan
    simp [grabFramesLoop, hci, List.range']
  | succ k ih =>
    intro n i hkn hc hd hcan
    obtain ⟨m, rfl⟩ : ∃ m, n = m + 1 := ⟨n - 1, by omega⟩
    have hci : cancel i = false := by simpa using hc 0 (by omega)
    have hdi : dev i = some (F i) := by simpa using hd 0 (by omega)
    have hrec := ih m (i + 1) (by omega)
      (by
        intro j hj
        have e : i + (j + 1) = i + 1 + j := by omega
        have h := hc (j + 1) (by omega)
        rwa [e] at h)
      (by
        intro j hj
        have e : i + (j + 1) = i + 1 + j := by omega
        have h := hd (j + 1) (by omega)
        rwa [e] at h)
      (by
        have e : i + (k + 1) = i + 1 + k := by omega
        rwa [e] at hcan)
    simp only [grabFramesLoop, hci, Bool.false_eq_true, if_false]
    rw [hrec, hdi]
    simp [List.range'_succ, List.replicate_succ]

theorem grabFramesLoop_complete (dev : Nat → Option Frame)
    (cancel : Nat → Bool) :
    ∀ n i, (∀ j, j < n → cancel (i + j) = false) →
      grabFramesLoop dev cancel n i
        = ⟨(List.range' i n).filterMap dev,
            (List.range' i n).map (fun j => (dev j).isSome),
            false, List.range' i n⟩ := by
  intro n
  induction n with
  | zero => intro i h; simp [grabFramesLoop, List.range']
  | succ n ih =>
    intro i h
    have hci : cancel i = false := by simpa using h 0 (by omega)
    have hrec := ih (i + 1)
      (by
        intro j hj
        have e : i + (j + 1) = i + 1 + j := by omega
        have hh := h (j + 1) (by omega)
        rwa [e] at hh)
    simp only [grabFramesLoop, hci, Bool.false_eq_true, if_false]
    rw [hrec]
    cases hdev : dev i with
    | some f => simp [List.range'_succ, hdev]
    | none => simp [List.range'_succ, hdev]

/-- C3 (amended): if cancellation is requested after exactly `k` frames have
been grabbed, with `k < n` (a frame still remaining), `grabImagesRaw` stops
before grabbing the next frame and returns exactly the `k` frames collected
so far, their `k` success flags, terminal outcome `Preempted`; the returned
state is idle with the hardware lock released, so a subsequent `grabImage`
acquires it and succeeds. -/
theorem C3_preemption_returns_k_frames (dev : Nat → Option Frame)
    (cancel : Nat → Bool) (F : Nat → Frame) (k n : Nat) (st : NodeState)
    (f2 : Frame) (hsleep : st.is_sleeping_ = false) (hkn : k < n)
    (hnc : ∀ j, j < k → cancel j = false)
    (hgrab : ∀ j, j < k → dev j = some (F j))
    (hcan : cancel k = true) :
    (grabImagesRaw dev cancel true n st).1.frames
      = (List.range' 0 k).map F ∧
    (grabImagesRaw dev cancel true n st).1.frames.length = k ∧
    (grabImagesRaw dev cancel true n st).1.statuses
      = List.replicate k true ∧
    (grabImagesRaw dev cancel true n st).1.outcome = Outcome.Preempted ∧
    (grabImagesRaw dev cancel true n st).2.1.grab_mutex_locked_ = false ∧
    (grabImagesRaw dev cancel true n st).2.1.multi_grab_in_progress_
      = false ∧
    (grabImage (some f2) (grabImagesRaw dev cancel true n st).2.1).1
      = GrabOutcome.Ok f2 := by
  have hloop := grabFramesLoop_preempt dev cancel F k n 0 hkn
    (by intro j hj; simpa using hnc j hj)
    (by intro j hj; simpa using hgrab j hj)
    (by simpa using hcan)
  refine ⟨?_, ?_, ?_, ?_, ?_, ?_, ?_⟩ <;>
    simp [grabImagesRaw, grabImage, hsleep, hloop]

/-- C3 counterexample to the `k = n` case: with `n = 1` frame requested, the
cancellation flag clear before frame 0 and set from index 1 on — that is,
cancellation requested after exactly `k = n = 1` frames have been grabbed —
the result carries the one grabbed frame but its terminal outcome is
`Succeeded`, not `Preempted`: cancellation is only checked before a remaining
frame. -/
theorem C3_counterexample :
    ((fun i => decide (1 ≤ i)) 0 = false ∧
      (fun i => decide (1 ≤ i)) 1 = true) ∧
    (grabImagesRaw (fun _ => some ⟨[0]⟩) (fun i => decide (1 ≤ i)) true 1
        initState).1.frames.length = 1 ∧
    (grabImagesRaw (fun _ => some ⟨[0]⟩) (fun i => decide (1 ≤ i)) true 1
        initState).1.outcome = Outcome.Succeeded :=
  ⟨⟨rfl, rfl⟩, rfl, rfl⟩

/-- C3 witness: the amended theorem at `n = 3`, cancellation after `k = 2`
grabbed frames. -/
theorem C3_witness :
    (grabImagesRaw (fun j => some ⟨[j]⟩) (fun i => decide (2 ≤ i)) true 3
        initState).1.frames
      = (List.range' 0 2).map (fun j => (⟨[j]⟩ : Frame)) ∧
    (grabImagesRaw (fun j => some ⟨[j]⟩) (fun i => decide (2 ≤ i)) true 3
        initState).1.frames.length = 2 ∧
    (grabImagesRaw (fun j => some ⟨[j]⟩) (fun i => decide (2 ≤ i)) true 3
        initState).1.statuses = List.replicate 2 true ∧
    (grabImagesRaw (fun j => some ⟨[j]⟩) (fun i => decide (2 ≤ i)) true 3
        initState).1.outcome = Outcome.Preempted ∧
    (grabImagesRaw (fun j => some ⟨[j]⟩) (fun i => decide (2 ≤ i)) true 3
        initState).2.1.grab_mutex_locked_ = false ∧
    (grabImagesRaw (fun j => some ⟨[j]⟩) (fun i => decide (2 ≤ i)) true 3
        initState).2.1.multi_grab_in_progress_ = false ∧
    (grabImage (some ⟨[9]⟩)
        (grabImagesRaw (fun j => some ⟨[j]⟩) (fun i => decide (2 ≤ i)) true 3
          initState).2.1).1 = GrabOutcome.Ok ⟨[9]⟩ :=
  C3_preemption_returns_k_frames (fun j => some ⟨[j]⟩)
    (fun i => decide (2 ≤ i)) (fun j => ⟨[j]⟩) 2 3 initState ⟨[9]⟩ rfl
    (by omega) (by decide) (fun _ _ => rfl) (by decide)

/-- C4: a multi-frame capture that is never cancelled runs to completion over
all `n` requested frames: every per-frame failure (timeout) is recorded in
the per-frame status sequence and does not abort the remaining frames — the
statuses cover all `n` frames in order, the collected frames are exactly the
successful grabs — and the terminal outcome is `Succeeded` when every frame
succeeded, `SucceededWithErrors` (a terminal success, not a failure) when
some frame failed. -/
theorem C4_per_frame_failures_do_not_abort (dev : Nat → Option Frame)
    (cancel : Nat → Bool) (n : Nat) (st : NodeState)
    (hsleep : st.is_sleeping_ = false)
    (hnc : ∀ j, j < n → cancel j = false) :
    (grabImagesRaw dev cancel true n st).1.statuses
      = (List.range n).map (fun j => (dev j).isSome) ∧
    (grabImagesRaw dev cancel true n st).1.frames
      = (List.range n).filterMap dev ∧
    (grabImagesRaw dev cancel true n st).1.outcome
      = (if (List.range n).all (fun j => (dev j).isSome) then
          Outcome.Succeeded
        else Outcome.SucceededWithErrors) := by
  have hloop := grabFramesLoop_complete dev cancel n 0
    (by intro j hj; simpa using hnc j hj)
  rw [List.range_eq_range']
  refine ⟨?_, ?_, ?_⟩ <;>
    simp [grabImagesRaw, hsleep, hloop, List.all_map, Function.comp]

/-- C4 witness: the theorem at `n = 2` with frame 0 succeeding and frame 1
timing out: both statuses recorded, one frame collected, terminal outcome
`SucceededWithErrors`. -/
theorem C4_witness :
    (grabImagesRaw (fun i => if i = 0 then some ⟨[5]⟩ else none)
        (fun _ => false) true 2 initState).1.statuses
      = (List.range 2).map
          (fun j => ((fun i => if i = 0 then some (⟨[5]⟩ : Frame)
            else none) j).isSome) ∧
    (grabImagesRaw (fun i => if i = 0 then some ⟨[5]⟩ else none)
        (fun _ => false) true 2 initState).1.frames
      = (List.range 2).filterMap
          (fun i => if i = 0 then some (⟨[5]⟩ : Frame) else none) ∧
    (grabImagesRaw (fun i => if i = 0 then some ⟨[5]⟩ else none)
        (fun _ => false) true 2 initState).1.outcome
      = (if (List.range 2).all
            (fun j => ((fun i => if i = 0 then some (⟨[5]⟩ : Frame)
              else none) j).isSome) then Outcome.Succeeded
        else Outcome.SucceededWithErrors) :=
  C4_per_frame_failures_do_not_abort
    (fun i => if i = 0 then some ⟨[5]⟩ else none) (fun _ => false) 2
    initState rfl (fun _ _ => rfl)

theorem bisectSearch_succ (resp : ℚ → ℚ) (target tol : ℚ) (n : Nat)
    (low high : ℚ) :
    bisectSearch resp target tol (n + 1) low high
      = (if |resp ((low + high) / 2) - target| ≤ tol then
          ⟨[(low + high) / 2], (low + high) / 2, resp ((low + high) / 2), true⟩
        else if resp ((low + high) / 2) < target then
          ⟨(low + high) / 2 ::
              (bisectSearch resp target tol n ((low + high) / 2) high).params,
            (bisectSearch resp target tol n ((low + high) / 2) high).reachedParam,
            (bisectSearch resp target tol n ((low + high) / 2) high).reached,
            (bisectSearch resp target tol n ((low + high) / 2) high).converged⟩
        else
          ⟨(low + high) / 2 ::
              (bisectSearch resp target tol n low ((low + high) / 2)).params,
            (bisectSearch resp target tol n low ((low + high) / 2)).reachedParam,
            (bisectSearch resp target tol n low ((low + high) / 2)).reached,
            (bisectSearch resp target tol n low ((low + high) / 2)).converged⟩) :=
  rfl

theorem bisectSearch_params_head (resp : ℚ → ℚ) (target tol : ℚ) (n : Nat)
    (low high : ℚ) :
    ((bisectSearch resp target tol n low high).params).head?
      = some ((low + high) / 2) := by
  cases n with
  | zero => rfl
  | succ n =>
    rw [bisectSearch_succ]
    by_cases hc : |resp ((low + high) / 2) - target| ≤ tol
    · rw [if_pos hc]
      rfl
    · rw [if_neg hc]
      by_cases hlt : resp ((low + high) / 2) < target
      · rw [if_pos hlt]
        rfl
      · rw [if_neg hlt]
        rfl

theorem bisectSearch_converges (f : ℚ → ℚ) (L target tol : ℚ)
    (hmono : Monotone f) (hlip : RatLipschitz L f) :
    ∀ n low high, f low ≤ target → target ≤ f high → low ≤ high →
      L * (high - low) ≤ tol * 2 ^ n →
      (bisectSearch f target tol (n + 1) low high).converged = true ∧
      |(bisectSearch f target tol (n + 1) low high).reached - target| ≤ tol := by
  intro n
  induction n with
  | zero =>
    intro low high hlo hhi hlh hb
    have hb1 : L * (high - low) ≤ tol := by simpa using hb
    have hml : low ≤ (low + high) / 2 := by linarith
    have hmh : (low + high) / 2 ≤ high := by linarith
    have h1 : f low ≤ f ((low + high) / 2) := hmono hml
    have h2 : f ((low + high) / 2) ≤ f high := hmono hmh
    have hfd : f high - f low ≤ L * (high - low) := by
      have h := hlip high low
      rwa [abs_of_nonneg (by linarith : (0 : ℚ) ≤ f high - f low),
        abs_of_nonneg (by linarith : (0 : ℚ) ≤ high - low)] at h
    have habs : |f ((low + high) / 2) - target| ≤ tol :=
      abs_le.mpr ⟨by linarith, by linarith⟩
    rw [bisectSearch_succ, if_pos habs]
    exact ⟨rfl, habs⟩
  | succ n ih =>
    intro low high hlo hhi hlh hb
    have hml : low ≤ (low + high) / 2 := by linarith
    have hmh : (low + high) / 2 ≤ high := by linarith
    rw [bisectSearch_succ]
    by_cases hc : |f ((low + high) / 2) - target| ≤ tol
    · rw [if_pos hc]
      exact ⟨rfl, hc⟩
    · rw [if_neg hc]
      have hhalf : (2 : ℚ) ^ (n + 1) = 2 ^ n * 2 := pow_succ 2 n
      by_cases hlt : f ((low + high) / 2) < target
      · rw [if_pos hlt]
        exact ih ((low + high) / 2) high (le_of_lt hlt) hhi hmh
          (by
            have e : high - (low + high) / 2 = (high - low) / 2 := by ring
            rw [e]
            rw [hhalf] at hb
            linarith)
      · rw [if_neg hlt]
        exact ih low ((low + high) / 2) hlo (le_of_not_lt hlt) hml
          (by
            have e : (low + high) / 2 - low = (high - low) / 2 := by ring
            rw [e]
            rw [hhalf] at hb
            linarith)

theorem setBrightness_extended_exposure (respE respG : ℚ → ℚ) (tol : ℚ)
    (budget : Nat) (emin emax gmin gmax cur : ℚ) (target : ℤ)
    (hout : ¬(50 ≤ target ∧ target ≤ 205)) :
    setBrightness respE respG tol budget emin emax gmin gmax cur target
        true false
      = ⟨(bisectSearch respE (target : ℚ) tol budget emin emax).converged,
          (bisectSearch respE (target : ℚ) tol budget emin emax).reached⟩ := by
  unfold setBrightness
  rw [if_neg (by simp), if_neg hout]

theorem setBrightness_extended_gain (respE respG : ℚ → ℚ) (tol : ℚ)
    (budget : Nat) (emin emax gmin gmax cur : ℚ) (target : ℤ)
    (hout : ¬(50 ≤ target ∧ target ≤ 205)) :
    setBrightness respE respG tol budget emin emax gmin gmax cur target
        false true
      = ⟨(bisectSearch respG (target : ℚ) tol budget gmin gmax).converged,
          (bisectSearch respG (target : ℚ) tol budget gmin gmax).reached⟩ := by
  unfold setBrightness
  rw [if_neg (by simp), if_neg hout]

theorem setBrightness_extended_both (respE respG : ℚ → ℚ) (tol : ℚ)
    (budget : Nat) (emin emax gmin gmax cur : ℚ) (target : ℤ)
    (hout : ¬(50 ≤ target ∧ target ≤ 205))
    (hconv : (bisectSearch respE (target : ℚ) tol budget emin emax).converged
      = true) :
    setBrightness respE respG tol budget emin emax gmin gmax cur target
        true true
      = ⟨true, (bisectSearch respE (target : ℚ) tol budget emin emax).reached⟩
      := by
  unfold setBrightness
  rw [if_neg (by simp), if_neg hout]
  simp [hconv]

/-- C1: for every target brightness in `[1, 255]` that lies outside the
native auto-brightness convergence band `[50, 205]`, `setBrightness` runs the
extended bisection search over the enabled controllable parameter (exposure
when `exposure_auto` is set, gain when `gain_auto` is set, exposure first
when both are), and under a monotone Lipschitz device response whose range
covers `[1, 255]` and a sufficient iteration budget the search reaches the
target within `tol` — the reachable brightness band is extended from
`[50, 205]` up to `[1, 255]`. -/
theorem C1_extended_search_reaches_target (respE respG : ℚ → ℚ)
    (LE LG tol : ℚ) (n : Nat) (emin emax gmin gmax cur : ℚ) (target : ℤ)
    (h1 : 1 ≤ target) (h255 : target ≤ 255)
    (hout : target < 50 ∨ 205 < target)
    (hmonoE : Monotone respE) (hlipE : RatLipschitz LE respE)
    (hElo : respE emin ≤ 1) (hEhi : 255 ≤ respE emax) (hE : emin ≤ emax)
    (hEb : LE * (emax - emin) ≤ tol * 2 ^ n)
    (hmonoG : Monotone respG) (hlipG : RatLipschitz LG respG)
    (hGlo : respG gmin ≤ 1) (hGhi : 255 ≤ respG gmax) (hG : gmin ≤ gmax)
    (hGb : LG * (gmax - gmin) ≤ tol * 2 ^ n) :
    (setBrightness respE respG tol (n + 1) emin emax gmin gmax cur target
        true false
        = ⟨true,
            (bisectSearch respE (target : ℚ) tol (n + 1) emin emax).reached⟩ ∧
      |(bisectSearch respE (target : ℚ) tol (n + 1) emin emax).reached
          - (target : ℚ)| ≤ tol) ∧
    (setBrightness respE respG tol (n + 1) emin emax gmin gmax cur target
        false true
        = ⟨true,
            (bisectSearch respG (target : ℚ) tol (n + 1) gmin gmax).reached⟩ ∧
      |(bisectSearch respG (target : ℚ) tol (n + 1) gmin gmax).reached
          - (target : ℚ)| ≤ tol) ∧
    setBrightness respE respG tol (n + 1) emin emax gmin gmax cur target
        true true
      = ⟨true,
          (bisectSearch respE (target : ℚ) tol (n + 1) emin emax).reached⟩ := by
  have houtI : ¬(50 ≤ target ∧ target ≤ 205) := by omega
  have htlo : (1 : ℚ) ≤ (target : ℚ) := by exact_mod_cast h1
  have hthi : (target : ℚ) ≤ 255 := by exact_mod_cast h255
  have hEconv := bisectSearch_converges respE LE (target : ℚ) tol hmonoE
    hlipE n emin emax (by linarith) (by linarith) hE hEb
  have hGconv := bisectSearch_converges respG LG (target : ℚ) tol hmonoG
    hlipG n gmin gmax (by linarith) (by linarith) hG hGb
  refine ⟨⟨?_, hEconv.2⟩, ⟨?_, hGconv.2⟩, ?_⟩
  · rw [setBrightness_extended_exposure respE respG tol (n + 1) emin emax
      gmin gmax cur target houtI, hEconv.1]
  · rw [setBrightness_extended_gain respE respG tol (n + 1) emin emax
      gmin gmax cur target houtI, hGconv.1]
  · exact setBrightness_extended_both respE respG tol (n + 1) emin emax
      gmin gmax cur target houtI hEconv.1

/-- C1 witness: the theorem at the affine device response
`p ↦ 1 + (127/50)·p` over parameter bounds `[0, 100]` (brightness range
`[1, 255]`), Lipschitz constant `127/50`, target `10`, tolerance `1` and
budget `9`. -/
theorem C1_witness :
    (setBrightness (fun p => 1 + 127 / 50 * p) (fun p => 1 + 127 / 50 * p) 1
        (8 + 1) 0 100 0 100 0 10 true false).success = true ∧
    |(setBrightness (fun p => 1 + 127 / 50 * p) (fun p => 1 + 127 / 50 * p) 1
        (8 + 1) 0 100 0 100 0 10 true false).reached - ((10 : ℤ) : ℚ)|
      ≤ 1 := by
  have hmono : Monotone (fun p : ℚ => 1 + 127 / 50 * p) := by
    intro a b hab
    have h := mul_le_mul_of_nonneg_left hab
      (show (0 : ℚ) ≤ 127 / 50 by norm_num)
    dsimp only
    linarith
  have hlip : RatLipschitz (127 / 50) (fun p : ℚ => 1 + 127 / 50 * p) := by
    intro x y
    have e : (1 + 127 / 50 * x) - (1 + 127 / 50 * y) = 127 / 50 * (x - y) :=
      by ring
    dsimp only
    rw [e, abs_mul, abs_of_pos (show (0 : ℚ) < 127 / 50 by norm_num)]
  have h := C1_extended_search_reaches_target (fun p => 1 + 127 / 50 * p)
    (fun p => 1 + 127 / 50 * p) (127 / 50) (127 / 50) 1 8 0 100 0 100 0 10
    (by norm_num) (by norm_num) (Or.inl (by norm_num)) hmono hlip
    (by norm_num) (by norm_num) (by norm_num) (by norm_num) hmono hlip
    (by norm_num) (by norm_num) (by norm_num) (by norm_num)
  constructor
  · rw [h.1.1]
  · rw [h.1.1]
    exact h.1.2

/-- C7: within one brightness search, the searched parameter is monotone with
respect to the search direction: between successive tried parameter values
`p, q`, whenever the brightness measured at `p` is below the target (target
above current brightness) the next value `q` is not smaller than `p`. -/
theorem C7_search_parameter_monotone (resp : ℚ → ℚ) (target tol : ℚ)
    (n : Nat) (low high : ℚ) (h : low ≤ high) :
    List.Chain' (fun p q => resp p < target → p ≤ q)
      (bisectSearch resp target tol n low high).params := by
  induction n generalizing low high with
  | zero => simp [bisectSearch]
  | succ n ih =>
    rw [bisectSearch_succ]
    by_cases hc : |resp ((low + high) / 2) - target| ≤ tol
    · rw [if_pos hc]
      simp
    · rw [if_neg hc]
      by_cases hlt : resp ((low + high) / 2) < target
      · rw [if_pos hlt]
        rw [List.chain'_cons']
        refine ⟨?_, ih ((low + high) / 2) high (by linarith)⟩
        intro y hy
        rw [bisectSearch_params_head] at hy
        simp only [Option.mem_def, Option.some.injEq] at hy
        intro _
        rw [← hy]
        linarith
      · rw [if_neg hlt]
        rw [List.chain'_cons']
        refine ⟨?_, ih low ((low + high) / 2) (by linarith)⟩
        intro y hy
        intro hplt
        exact absurd hplt hlt

/-- C7 witness: the theorem at the identity response, target `10`, tolerance
`1`, budget `3`, bounds `[0, 100]`. -/
theorem C7_witness :
    List.Chain' (fun p q => p < 10 → p ≤ q)
      (bisectSearch (fun p => p) 10 1 3 0 100).params :=
  C7_search_parameter_monotone (fun p => p) 10 1 3 0 100 (by norm_num)

/-- C2 counterexample: with the identity brightness response over parameter
bounds `[0, 256]`, target `1`, tolerance `1/2` and iteration budget `2`, the
search exhausts its budget without reaching tolerance
(`converged = false`), and `setBrightness` reports `success = false` — budget
exhaustion is reported as a failure, with the best-effort reached value `32`
populated. -/
theorem C2_counterexample :
    (bisectSearch (fun p => p) 1 (1 / 2) 2 0 256).converged = false ∧
    setBrightness (fun p => p) (fun p => p) (1 / 2) 2 0 256 0 100 0 1
        true false
      = ⟨false, 32⟩ ∧
    (bisectSearch (fun p => p) 1 (1 / 2) 2 0 256).reached = 32 := by
  refine ⟨?_, ?_, ?_⟩ <;> norm_num [setBrightness, bisectSearch]

/-- C2 (amended): when the brightness search exhausts its bounded iteration
budget without bringing the measured brightness within tolerance of the
target, `setBrightness` returns `success = false` — per the header contract
"true if the brightness could be reached or false otherwise" — while still
carrying the best-effort reached brightness value of the exhausted search. -/
theorem C2_exhaustion_reports_failure_with_value (respE respG : ℚ → ℚ)
    (tol : ℚ) (budget : Nat) (emin emax gmin gmax cur : ℚ) (target : ℤ)
    (hout : ¬(50 ≤ target ∧ target ≤ 205))
    (hnc : (bisectSearch respE (target : ℚ) tol budget emin emax).converged
      = false) :
    setBrightness respE respG tol budget emin emax gmin gmax cur target
        true false
      = ⟨false,
          (bisectSearch respE (target : ℚ) tol budget emin emax).reached⟩ := by
  rw [setBrightness_extended_exposure respE respG tol budget emin emax gmin
    gmax cur target hout, hnc]

/-- C2 witness: the amended theorem at the counterexample's concrete search
(identity response, target `1`, tolerance `1/2`, budget `2`). -/
theorem C2_witness :
    setBrightness (fun p => p) (fun p => p) (1 / 2) 2 0 256 0 100 0 1
        true false
      = ⟨false,
          (bisectSearch (fun p => p) ((1 : ℤ) : ℚ) (1 / 2) 2 0 256).reached⟩ :=
  C2_exhaustion_reports_failure_with_value (fun p => p) (fun p => p) (1 / 2)
    2 0 256 0 100 0 1 (by omega) (by norm_num [bisectSearch])
